import Mathlib

/-!
Verification development for the StablePay partner API core: the quote
computation, the FX rate fallback, the KYC verification state tracking, the
transaction lifecycle handlers, the webhook signing scheme, and the in-memory
storage layer. Each definition is a shallow embedding of the corresponding
TypeScript function; JavaScript numbers are modelled as exact rationals, and
JavaScript truthiness on optional strings and numbers is modelled explicitly.
-/

namespace StablePay

/-- Truthiness of an optional JavaScript string: absent and empty strings are
falsy, every other string is truthy. -/
def jsTruthyStr : Option String → Bool
  | none => false
  | some s => !s.isEmpty

/-- Truthiness of an optional JavaScript number: absent and zero are falsy. -/
def jsTruthyNum : Option ℚ → Bool
  | none => false
  | some q => decide (q ≠ 0)

/-- The JavaScript or-else idiom `a || b` on optional strings: keep `a` when
it is truthy, otherwise fall back to `b`. -/
def jsOr (a b : Option String) : Option String :=
  if jsTruthyStr a then a else b

/-! ## Rate provider (getUsdInrRate, routes: enhanced USD-INR rate fetching) -/

/-- Outcome of the external FX fetch, as the handler observes it: a parsed
JSON payload carrying the result field and the optional INR conversion rate,
or a thrown error (network failure, timeout, malformed body). -/
inductive FxFetchOutcome where
  | ok (result : String) (inrRate : Option ℚ)
  | thrown
deriving DecidableEq, Repr

/-- Embedding of getUsdInrRate: with an API key configured and a payload whose
result field is the string success and whose INR rate is present and truthy,
the live rate is returned; in every other case (no key, non-success payload,
absent or zero INR field, thrown error) the hard-coded fallback 83.40 is
returned. The try-catch in the source means no failure escapes to the caller. -/
def getUsdInrRate (apiKey : Option String) (fx : FxFetchOutcome) : ℚ :=
  match apiKey with
  | none => 83.40
  | some _ =>
    match fx with
    | .ok result inrRate =>
      match inrRate with
      | some r => if result = "success" ∧ r ≠ 0 then r else 83.40
      | none => 83.40
    | .thrown => 83.40

/-- The external FX call failed: the API key is missing, the call threw, or
the payload was not a success payload with a truthy INR rate. -/
def fxCallFailed : Option String → FxFetchOutcome → Prop
  | none, _ => True
  | some _, .thrown => True
  | some _, .ok result inrRate =>
      result ≠ "success" ∨ inrRate = none ∨ inrRate = some 0

/-! ## Fee calculator (calculateQuote) -/

/-- The deposit address and confirmation count chosen per network by
generateDepositAddress, with the polygon entry and 12 as defaults. -/
def generateDepositAddress (network : String) : String × Nat :=
  if network = "polygon" then ("0x8e1234567890abcdef1234567890abcdef1234567", 12)
  else if network = "ethereum" then ("0x1234567890abcdef1234567890abcdef12345678", 12)
  else if network = "bsc" then ("0xabcdef1234567890abcdef1234567890abcdef12", 15)
  else if network = "solana" then ("9WzDXwBbmkg8ZTbNMqUxvQRAyrZzDsGYdLVL9zYtAWWM", 1)
  else ("0x8e1234567890abcdef1234567890abcdef1234567", 12)

/-- The breakdown returned by calculateQuote. -/
structure QuoteBreakdown where
  fxRate : ℚ
  grossInr : ℚ
  tds : ℚ
  platformFee : ℚ
  gst : ℚ
  netInr : ℚ
  depositAddress : String
  minConfirmations : Nat
deriving DecidableEq, Repr

/-- The arithmetic core of calculateQuote, after the FX rate has been
obtained: gross INR, 1 percent TDS on gross, 0.7 percent platform fee on
gross, 18 percent GST on the platform fee only, and the net after all
deductions. -/
def calculateQuoteWith (amountUsd fxRate : ℚ) (network : String) : QuoteBreakdown :=
  let grossInr := amountUsd * fxRate
  let tds := grossInr * 0.01
  let platformFee := grossInr * 0.007
  let gst := platformFee * 0.18
  let netInr := grossInr - tds - platformFee - gst
  let da := generateDepositAddress network
  ⟨fxRate, grossInr, tds, platformFee, gst, netInr, da.1, da.2⟩

/-- Embedding of calculateQuote: fetch the USD-INR rate (with fallback), then
compute the breakdown. -/
def calculateQuote (amountUsd : ℚ) (apiKey : Option String) (fx : FxFetchOutcome)
    (network : String) : QuoteBreakdown :=
  calculateQuoteWith amountUsd (getUsdInrRate apiKey fx) network

/-! ## Name matching (calculateNameSimilarity, levenshteinDistance and the
name-match handler's normalization in routes.ts) -/

/-- A whitespace character as matched by the regular expression backslash-s,
restricted to the usual ASCII whitespace. -/
def jsIsSpaceChar (c : Char) : Bool :=
  c == ' ' || c == '\t' || c == '\n' || c == '\r'

/-- Inner loop of the levenshteinDistance dynamic program: given the character
of the second string for this row, the remaining characters of the first
string, the suffix of the previous row starting at the diagonal cell, and the
cell to the left, produce the remaining cells of the current row. -/
def levRowAux (c2 : Char) : List Char → List Nat → Nat → List Nat
  | c1 :: s1, d :: up :: rest, left =>
    let cell := if c2 = c1 then d else 1 + min (min d left) up
    cell :: levRowAux c2 s1 (up :: rest) cell
  | _, _, _ => []

/-- One full row of the levenshteinDistance matrix: the leading cell is the
row index, the rest comes from the inner loop. -/
def levNextRow (c2 : Char) (i : Nat) (prev : List Nat) (s1 : List Char) : List Nat :=
  i :: levRowAux c2 s1 prev i

/-- Embedding of levenshteinDistance: row zero is 0..n, each later row is
computed from the previous one, and the answer is the last cell of the last
row. -/
def levenshteinDistance (str1 str2 : String) : Nat :=
  let s1 := str1.data
  let row0 := List.range (s1.length + 1)
  let fin := str2.data.foldl
    (fun acc c2 => (levNextRow c2 (acc.2 + 1) acc.1 s1, acc.2 + 1)) (row0, 0)
  fin.1.getLastD 0

/-- Embedding of calculateNameSimilarity: similarity is max length minus edit
distance, over max length, and 1 for two empty strings. -/
def calculateNameSimilarity (name1 name2 : String) : ℚ :=
  let maxLength := max name1.length name2.length
  if maxLength = 0 then 1
  else ((maxLength : ℚ) - levenshteinDistance name1 name2) / maxLength

/-- The name-match handler's normalization: lowercase, trim, and collapse of
every whitespace run to a single space. Collapsing keeps one space per run and
maps the surviving whitespace character to a plain space. -/
def collapseWhitespace : List Char → List Char
  | [] => []
  | [c] => [if jsIsSpaceChar c then ' ' else c]
  | c :: d :: rest =>
    if jsIsSpaceChar c && jsIsSpaceChar d then collapseWhitespace (d :: rest)
    else (if jsIsSpaceChar c then ' ' else c) :: collapseWhitespace (d :: rest)

/-- Leading and trailing whitespace removal, as the trim call performs. -/
def jsTrim (l : List Char) : List Char :=
  ((l.dropWhile jsIsSpaceChar).reverse.dropWhile jsIsSpaceChar).reverse

/-- The cleaned form of a name in the name-match handler: lowercase, then
trim, then whitespace collapse. -/
def cleanName (s : String) : String :=
  String.mk (collapseWhitespace (jsTrim (s.data.map Char.toLower)))

/-- The similarity the name-match handler computes for a pair of raw names:
clean both, then apply calculateNameSimilarity. -/
def nameMatchSimilarity (name1 name2 : String) : ℚ :=
  calculateNameSimilarity (cleanName name1) (cleanName name2)

/-! ## Data model (shared schema) -/

/-- The fields the routes read from the verificationData JSON blob of a KYC
session: only the Aadhaar reference id stored by the OTP-generation handler. -/
structure VerifData where
  aadhaarRefId : Option String
deriving DecidableEq, Repr

/-- A KYC session record, as MemStorage.createKycSession builds it: one
status, six per-method verified booleans, per-method recorded names, and a
consolidated verified name. -/
structure KycSession where
  sessionId : String
  partnerId : String
  userId : String
  status : String
  aadhaarVerified : Bool
  panVerified : Bool
  faceVerified : Bool
  upiVerified : Bool
  bankVerified : Bool
  nameMatchVerified : Bool
  aadhaarName : Option String
  panName : Option String
  upiName : Option String
  bankName : Option String
  verifiedName : Option String
  verificationData : Option VerifData
deriving DecidableEq, Repr

/-- A quote record as MemStorage.createQuote stores it. The deposit address
and confirmation count passed by the quotes handler are not among the fields
the store writes, so they do not appear here; amounts are exact rationals
where the store keeps decimal strings. -/
structure Quote where
  quoteReference : String
  sessionId : String
  token : String
  network : String
  amount : ℚ
  fxRate : ℚ
  markupPct : ℚ
  grossINR : ℚ
  commission : ℚ
  gstAmount : ℚ
  tdsAmount : ℚ
  estimatedINR : ℚ
  expiresAt : Nat
deriving DecidableEq, Repr

/-- A transaction record as MemStorage.createTransaction stores it: defaulted
lifecycle fields plus the insert data spread over them. -/
structure Transaction where
  transactionId : String
  sessionId : String
  quoteReference : String
  userId : String
  status : String
  network : String
  depositAddress : Option String
  expectedAmount : ℚ
  depositedAmount : Option ℚ
  payoutAmount : Option ℚ
  depositTxHash : Option String
  payoutTxHash : Option String
  completedAt : Option Nat
  expiresAt : Nat
deriving DecidableEq, Repr

/-- A webhook event record as MemStorage.createWebhookEvent stores it. -/
structure WebhookEvent where
  eventId : String
  eventType : String
  webhookUrl : String
  payload : String
  status : String
  attempts : Nat
  lastAttempt : Option Nat
deriving DecidableEq, Repr

/-! ## In-memory storage (MemStorage) -/

/-- Lookup in a keyed collection, the Map.get of MemStorage. -/
def lookupEntry {α : Type} : List (String × α) → String → Option α
  | [], _ => none
  | (k0, v) :: rest, k => if k0 = k then some v else lookupEntry rest k

/-- Write to a keyed collection, the Map.set of MemStorage: replace the entry
under the key when present, append it otherwise. -/
def setEntry {α : Type} : List (String × α) → String → α → List (String × α)
  | [], k, v => [(k, v)]
  | (k0, v0) :: rest, k, v =>
    if k0 = k then (k, v) :: rest else (k0, v0) :: setEntry rest k v

/-- The MemStorage state: one keyed collection per entity plus the shared
currentId counter used to mint references. The partner map is omitted: no
operation modelled here touches it, and MemStorage keeps no session map at
all. -/
structure Storage where
  currentId : Nat
  kycSessions : List (String × KycSession)
  quotes : List (String × Quote)
  transactions : List (String × Transaction)
  webhookEvents : List (String × WebhookEvent)
deriving DecidableEq, Repr

/-- The three-digit zero padding applied to minted ids, as padStart(3, 0)
behaves on the decimal rendering of the counter. -/
def pad3 (n : Nat) : String :=
  if n < 10 then "00" ++ toString n
  else if n < 100 then "0" ++ toString n
  else toString n

/-- Embedding of MemStorage.updateTransaction: an unknown id yields undefined
and no write; a known id yields the merged record, written back. The spread
of a partial-update object over the old record is modelled by the merge
function each call site supplies. -/
def updateTransaction (st : Storage) (transactionId : String)
    (merge : Transaction → Transaction) : Option Transaction × Storage :=
  match lookupEntry st.transactions transactionId with
  | none => (none, st)
  | some t =>
    let t2 := merge t
    (some t2, { st with transactions := setEntry st.transactions transactionId t2 })

/-- Embedding of MemStorage.updateKycSession, with the same unknown-id and
merge behavior as updateTransaction. -/
def updateKycSession (st : Storage) (sessionId : String)
    (merge : KycSession → KycSession) : Option KycSession × Storage :=
  match lookupEntry st.kycSessions sessionId with
  | none => (none, st)
  | some s =>
    let s2 := merge s
    (some s2, { st with kycSessions := setEntry st.kycSessions sessionId s2 })

/-- Embedding of MemStorage.updateWebhookEvent, with the same unknown-id and
merge behavior as updateTransaction. -/
def updateWebhookEvent (st : Storage) (eventId : String)
    (merge : WebhookEvent → WebhookEvent) : Option WebhookEvent × Storage :=
  match lookupEntry st.webhookEvents eventId with
  | none => (none, st)
  | some e =>
    let e2 := merge e
    (some e2, { st with webhookEvents := setEntry st.webhookEvents eventId e2 })

/-- The switch of MemStorage.updateKycVerificationStatus: each verification
type updates exactly its own verified flag and, when the name argument is
truthy, its own name field; the name-match name field is the consolidated
verifiedName, the face branch has no name field, and an unrecognized type
updates nothing. -/
def applyVerification (s : KycSession) (verificationType : String)
    (verified : Bool) (name : Option String) : KycSession :=
  if verificationType = "aadhaar" then
    { s with aadhaarVerified := verified,
             aadhaarName := if jsTruthyStr name then name else s.aadhaarName }
  else if verificationType = "pan" then
    { s with panVerified := verified,
             panName := if jsTruthyStr name then name else s.panName }
  else if verificationType = "face" then
    { s with faceVerified := verified }
  else if verificationType = "upi" then
    { s with upiVerified := verified,
             upiName := if jsTruthyStr name then name else s.upiName }
  else if verificationType = "bank" then
    { s with bankVerified := verified,
             bankName := if jsTruthyStr name then name else s.bankName }
  else if verificationType = "name_match" then
    { s with nameMatchVerified := verified,
             verifiedName := if jsTruthyStr name then name else s.verifiedName }
  else s

/-- Embedding of MemStorage.updateKycVerificationStatus: unknown ids yield
undefined and no write; known ids get the per-type field update applied and
written back. -/
def updateKycVerificationStatus (st : Storage) (sessionId verificationType : String)
    (verified : Bool) (name : Option String) : Option KycSession × Storage :=
  match lookupEntry st.kycSessions sessionId with
  | none => (none, st)
  | some s =>
    let s2 := applyVerification s verificationType verified name
    (some s2, { st with kycSessions := setEntry st.kycSessions sessionId s2 })

/-- The insert data MemStorage.createTransaction takes (the IStorage
createTransaction argument shape). -/
structure TxnInsert where
  sessionId : String
  quoteReference : String
  userId : String
  expectedAmount : ℚ
  network : String
  depositAddress : Option String
  expiresAt : Nat
deriving DecidableEq, Repr

/-- Embedding of MemStorage.createTransaction: mint tx_NNN from the counter,
default the lifecycle fields, spread the insert data, store. -/
def createTransaction (st : Storage) (ins : TxnInsert) : Transaction × Storage :=
  let transactionId := "tx_" ++ pad3 st.currentId
  let t : Transaction :=
    { transactionId := transactionId
      sessionId := ins.sessionId
      quoteReference := ins.quoteReference
      userId := ins.userId
      status := "pending_deposit"
      network := ins.network
      depositAddress := ins.depositAddress
      expectedAmount := ins.expectedAmount
      depositedAmount := none
      payoutAmount := none
      depositTxHash := none
      payoutTxHash := none
      completedAt := none
      expiresAt := ins.expiresAt }
  (t, { st with currentId := st.currentId + 1,
                transactions := setEntry st.transactions transactionId t })

/-- The insert data MemStorage.createQuote takes (the IStorage createQuote
argument shape); the caller also passes a deposit address and a confirmation
count, but the store does not keep them, so they are omitted. -/
structure QuoteInsert where
  sessionId : String
  token : String
  network : String
  amount : ℚ
  fxRate : ℚ
  markupPct : ℚ
  grossINR : ℚ
  commission : ℚ
  gstAmount : ℚ
  tdsAmount : ℚ
  estimatedINR : ℚ
  expiresAt : Nat
deriving DecidableEq, Repr

/-- Embedding of MemStorage.createQuote: mint quote_NNN from the counter,
build the record field by field, store. -/
def createQuote (st : Storage) (ins : QuoteInsert) : Quote × Storage :=
  let quoteReference := "quote_" ++ pad3 st.currentId
  let q : Quote :=
    { quoteReference := quoteReference
      sessionId := ins.sessionId
      token := ins.token
      network := ins.network
      amount := ins.amount
      fxRate := ins.fxRate
      markupPct := ins.markupPct
      grossINR := ins.grossINR
      commission := ins.commission
      gstAmount := ins.gstAmount
      tdsAmount := ins.tdsAmount
      estimatedINR := ins.estimatedINR
      expiresAt := ins.expiresAt }
  (q, { st with currentId := st.currentId + 1,
                quotes := setEntry st.quotes quoteReference q })

/-! ## The storage the enhanced routes actually use (mockStorage,
src/server/routes-fixed.ts lines 1028-1187, exported as
mockEnhancedStoragePromise and imported by the routes as their storage)

This store is stateless: every getter fabricates a fresh record for any id,
and every update returns an echo of its arguments without persisting
anything. Timestamp fields of the fabrications are dropped except where a
handler reads them (the quote expiry), which takes the request clock as a
parameter. -/

/-- The session object mockStorage.getSessionById fabricates: always active,
always carrying the fixed mock callback URL. -/
structure MockSession where
  sessionId : String
  partnerId : String
  status : String
  callbackUrl : String
deriving DecidableEq, Repr

/-- The quote object mockStorage.getQuoteByReference fabricates: always
status active, amount 100, expiring 15 minutes after the lookup. -/
structure MockQuote where
  quoteReference : String
  sessionId : String
  status : String
  amount : ℚ
  network : String
  depositAddress : String
  expiresAt : Nat
deriving DecidableEq, Repr

/-- The KYC session object mockStorage.getKycSessionById fabricates: always
status completed, with no verificationData key and no verification flags. -/
structure MockKycSession where
  sessionId : String
  partnerId : String
  userId : String
  status : String
  verificationData : Option VerifData
deriving DecidableEq, Repr

/-- The transaction object mockStorage.getTransactionById fabricates: always
status pending_deposit, quoteReference quote_12345, with no deposit or
payout fields. -/
structure MockTransaction where
  transactionId : String
  quoteReference : String
  status : String
  network : String
  depositAddress : String
deriving DecidableEq, Repr

/-- Embedding of mockStorage.getSessionById: a fabricated always-active
session for every id, never a miss. -/
def mockGetSessionById (sessionId : String) : MockSession :=
  ⟨sessionId, "partner_12345", "active", "https://mockpartner.com/callback"⟩

/-- Embedding of mockStorage.getQuoteByReference: a fabricated active quote
for every reference, expiring 15 minutes after the lookup time. -/
def mockGetQuoteByReference (quoteReference : String) (now : Nat) : MockQuote :=
  ⟨quoteReference, "sess_12345", "active", 100, "polygon",
   "0x1234567890abcdef1234567890abcdef12345678", now + 15 * 60 * 1000⟩

/-- Embedding of mockStorage.getKycSessionById: a fabricated completed KYC
session for every id, carrying no verificationData. -/
def mockGetKycSessionById (sessionId : String) : MockKycSession :=
  ⟨sessionId, "partner_12345", "user_12345", "completed", none⟩

/-- Embedding of mockStorage.getTransactionById: a fabricated
pending_deposit transaction for every id. -/
def mockGetTransactionById (transactionId : String) : MockTransaction :=
  ⟨transactionId, "quote_12345", "pending_deposit", "polygon",
   "0x1234567890abcdef1234567890abcdef12345678"⟩

/-! ## Route handlers (registerEnhancedRoutes over mockStorage)

The update methods of mockStorage (updateTransaction, updateKycSession,
updateKycVerificationStatus) return echo objects and persist nothing; the
handlers discard those return values, so the handlers are pure functions of
their request and no storage state is threaded. -/

/-- An HTTP response as the handlers build it: status code, the success flag
of the JSON envelope, and the error message when unsuccessful. -/
structure Resp where
  httpStatus : Nat
  success : Bool
  error : Option String
deriving DecidableEq, Repr

/-- The 200 success envelope. -/
def respOk : Resp := ⟨200, true, none⟩

/-- A failure envelope with the given status code and error message. -/
def respErr (code : Nat) (msg : String) : Resp := ⟨code, false, some msg⟩

/-- One deliverWebhook invocation attempted by a handler: the callback URL it
posts to, the event field of the payload, and the transactionId field. -/
structure WebhookCall where
  url : String
  event : String
  transactionId : String
deriving DecidableEq, Repr

/-- The quote object the quotes handler hands back: the insert data it
passes to createQuote with the reference and status the mock store adds
(mockStorage.createQuote spreads the insert and persists nothing). -/
structure CreatedQuote where
  quoteReference : String
  sessionId : String
  token : String
  targetChain : String
  targetToken : String
  network : String
  amount : ℚ
  fxRate : ℚ
  markupPct : ℚ
  grossINR : ℚ
  commission : ℚ
  gstAmount : ℚ
  tdsAmount : ℚ
  estimatedINR : ℚ
  depositAddress : String
  minConfirmations : Nat
  expiresAt : Nat
  status : String
deriving DecidableEq, Repr

/-- The transaction object the create handler hands back: the insert data it
passes to createTransaction with the id and status the mock store adds
(mockStorage.createTransaction spreads the insert and persists nothing; the
minted id derives from the clock). -/
structure CreatedTransaction where
  transactionId : String
  sessionId : String
  quoteReference : String
  userId : String
  expectedAmount : ℚ
  network : String
  depositAddress : String
  status : String
  expiresAt : Nat
deriving DecidableEq, Repr

/-- Embedding of the GET quotes handler over mockStorage: require the four
query fields, fetch the session (the store fabricates an active one for
every id, so the inactive-session rejection is unreachable), compute the
breakdown (FX fallback included), and return the created quote object; the
store persists nothing. The raw amountUsd query string is modelled by its
parsed rational, presence by isSome. -/
def quotesHandler (sessionId asset network : Option String) (amountUsd : Option ℚ)
    (apiKey : Option String) (fx : FxFetchOutcome) (now : Nat) :
    Resp × Option CreatedQuote :=
  if !(jsTruthyStr sessionId && jsTruthyStr asset && jsTruthyStr network
        && amountUsd.isSome) then
    (respErr 400 "sessionId, asset, network, and amountUsd are required", none)
  else
    let session := mockGetSessionById (sessionId.getD "")
    if session.status ≠ "active" then
      (respErr 400 "Invalid or inactive session", none)
    else
      let amt := amountUsd.getD 0
      let qd := calculateQuote amt apiKey fx (network.getD "")
      (respOk, some
        { quoteReference := "quote_" ++ toString now
          sessionId := sessionId.getD ""
          token := asset.getD ""
          targetChain := network.getD ""
          targetToken := asset.getD ""
          network := network.getD ""
          amount := amt
          fxRate := qd.fxRate
          markupPct := 0.7
          grossINR := qd.grossInr
          commission := qd.platformFee
          gstAmount := qd.gst
          tdsAmount := qd.tds
          estimatedINR := qd.netInr
          depositAddress := qd.depositAddress
          minConfirmations := qd.minConfirmations
          expiresAt := now + 15 * 60 * 1000
          status := "active" })

/-- Embedding of the POST transaction-create handler over mockStorage:
require the five body fields, fetch the session, quote and KYC session (the
store fabricates all three for every id, so the missing-reference rejection
is unreachable), check the KYC status (always completed in the fabrication)
and the quote expiry (always 15 minutes ahead of the lookup), and return the
created transaction object; nothing is persisted. No session-status or
quote-status check appears in the handler at all. -/
def createTransactionHandler (sessionId quoteId kycSessionId asset network : Option String)
    (now : Nat) : Resp × Option CreatedTransaction :=
  if !(jsTruthyStr sessionId && jsTruthyStr quoteId && jsTruthyStr kycSessionId
        && jsTruthyStr asset && jsTruthyStr network) then
    (respErr 400 "sessionId, quoteId, kycSessionId, asset, and network are required",
      none)
  else
    let session := mockGetSessionById (sessionId.getD "")
    let quote := mockGetQuoteByReference (quoteId.getD "") now
    let kycSession := mockGetKycSessionById (kycSessionId.getD "")
    if kycSession.status ≠ "completed" then
      (respErr 400 "KYC not completed", none)
    else if now > quote.expiresAt then
      (respErr 400 "Quote has expired", none)
    else
      (respOk, some
        { transactionId := "txn_" ++ toString now
          sessionId := session.sessionId
          quoteReference := quoteId.getD ""
          userId := kycSession.userId
          expectedAmount := quote.amount
          network := network.getD ""
          depositAddress := quote.depositAddress
          status := "pending_deposit"
          expiresAt := quote.expiresAt })

/-- The webhook attempt shared by the deposit and payout handlers: the
session is fetched under the quoteReference of the transaction — which the
mock store answers with an always-active session carrying the fixed truthy
callback URL, so the delivery is always attempted. -/
def webhookForTransaction (t : MockTransaction) (event : String) : List WebhookCall :=
  let session := mockGetSessionById t.quoteReference
  if jsTruthyStr (some session.callbackUrl) then
    [⟨session.callbackUrl, event, t.transactionId⟩]
  else []

/-- Embedding of the POST simulate-deposit handler over mockStorage: require
the three body fields (a zero amount is falsy and rejected as missing),
fetch the transaction (the store fabricates a pending_deposit one for every
id, so the 404 branch is unreachable), call updateTransaction — whose echo
return is discarded and which persists nothing — and attempt the
deposit.detected webhook through the session fetched under the
quoteReference of the transaction. -/
def simulateDepositHandler (transactionId : Option String) (amount : Option ℚ)
    (txHash : Option String) : Resp × List WebhookCall :=
  if !(jsTruthyStr transactionId && jsTruthyNum amount && jsTruthyStr txHash) then
    (respErr 400 "transactionId, amount, and txHash are required", [])
  else
    let transaction := mockGetTransactionById (transactionId.getD "")
    (respOk, webhookForTransaction transaction "deposit.detected")

/-- Embedding of the POST payout-initiate handler over mockStorage: require
the four body fields, fetch the transaction (always a pending_deposit
fabrication, so the 404 branch is unreachable), reject any status other
than deposit_confirmed, and otherwise record the payout (echo only, nothing
persists) and attempt the payout.settled webhook. -/
def initiatePayoutHandler (transactionId channel destination : Option String)
    (amount : Option ℚ) : Resp × List WebhookCall :=
  if !(jsTruthyStr transactionId && jsTruthyStr channel && jsTruthyStr destination
        && jsTruthyNum amount) then
    (respErr 400 "transactionId, channel, destination, and amount are required", [])
  else
    let transaction := mockGetTransactionById (transactionId.getD "")
    if transaction.status ≠ "deposit_confirmed" then
      (respErr 400 "Transaction not ready for payout", [])
    else
      (respOk, webhookForTransaction transaction "payout.settled")

/-- Outcome of a callCashfreeKycApi invocation as the Aadhaar verification
handler observes it: a SUCCESS result carrying the name the provider
reported, a non-SUCCESS result, or a thrown error caught by the outer
handler. -/
inductive CashfreeOutcome where
  | success (name : Option String)
  | failureResp
  | thrown
deriving DecidableEq, Repr

/-- Embedding of the POST aadhaar-okyc handler over mockStorage: require
sessionId, aadhaarNumber and otp, fetch the KYC session (always a completed
fabrication with no verificationData, so the 404 branch is unreachable),
and reject when no Aadhaar reference id is found — which is every time,
since the fabricated session never carries one and the OTP-generation
handler's write of it is an unpersisted echo. The success branch, were it
reachable, would call updateKycSession with status completed and the
provider-or-request name, but that write would also not persist. -/
def aadhaarOkycHandler (sessionId aadhaarNumber otp _name : Option String)
    (outcome : CashfreeOutcome) : Resp :=
  if !(jsTruthyStr sessionId && jsTruthyStr aadhaarNumber && jsTruthyStr otp) then
    respErr 400 "sessionId, aadhaarNumber, and otp are required"
  else
    let session := mockGetKycSessionById (sessionId.getD "")
    let refId := (session.verificationData.getD ⟨none⟩).aadhaarRefId
    if !jsTruthyStr refId then
      respErr 400 "No Aadhaar reference ID found. Please generate OTP first."
    else
      match outcome with
      | .success _ => respOk
      | .failureResp => respErr 400 "Aadhaar verification failed"
      | .thrown => respErr 500 "Aadhaar verification failed"

/-! ## Webhook signing (verifyWebhookSignature, deliverWebhook)

The crypto library the routes call is embedded here as the FIPS 180-4
SHA-256 and RFC 2104 HMAC over byte lists, with 32-bit words as naturals
reduced mod 2 to the 32. -/

/-- Reduction to a 32-bit word. -/
def w32 (n : Nat) : Nat := n % 4294967296

/-- Right rotation of a 32-bit word by k bits. -/
def rotr (k x : Nat) : Nat := x / 2 ^ k + x % 2 ^ k * 2 ^ (32 - k)

/-- Bitwise complement of a 32-bit word. -/
def notW (x : Nat) : Nat := Nat.xor x 4294967295

/-- The ch mixer of the SHA-256 round. -/
def shaCh (e f g : Nat) : Nat := Nat.xor (Nat.land e f) (Nat.land (notW e) g)

/-- The maj mixer of the SHA-256 round. -/
def shaMaj (a b c : Nat) : Nat :=
  Nat.xor (Nat.xor (Nat.land a b) (Nat.land a c)) (Nat.land b c)

/-- The big sigma-0 rotation mix. -/
def bigSigma0 (a : Nat) : Nat := Nat.xor (Nat.xor (rotr 2 a) (rotr 13 a)) (rotr 22 a)

/-- The big sigma-1 rotation mix. -/
def bigSigma1 (e : Nat) : Nat := Nat.xor (Nat.xor (rotr 6 e) (rotr 11 e)) (rotr 25 e)

/-- The small sigma-0 schedule mix. -/
def smallSigma0 (x : Nat) : Nat := Nat.xor (Nat.xor (rotr 7 x) (rotr 18 x)) (x / 2 ^ 3)

/-- The small sigma-1 schedule mix. -/
def smallSigma1 (x : Nat) : Nat := Nat.xor (Nat.xor (rotr 17 x) (rotr 19 x)) (x / 2 ^ 10)

/-- The 64 SHA-256 round constants, written in decimal. -/
def shaK : List Nat :=
  [1116352408, 1899447441, 3049323471, 3921009573, 961987163,
   1508970993, 2453635748, 2870763221, 3624381080, 310598401,
   607225278, 1426881987, 1925078388, 2162078206, 2614888103,
   3248222580, 3835390401, 4022224774, 264347078, 604807628,
   770255983, 1249150122, 1555081692, 1996064986, 2554220882,
   2821834349, 2952996808, 3210313671, 3336571891, 3584528711,
   113926993, 338241895, 666307205, 773529912, 1294757372,
   1396182291, 1695183700, 1986661051, 2177026350, 2456956037,
   2730485921, 2820302411, 3259730800, 3345764771, 3516065817,
   3600352804, 4094571909, 275423344, 430227734, 506948616,
   659060556, 883997877, 958139571, 1322822218, 1537002063,
   1747873779, 1955562222, 2024104815, 2227730452, 2361852424,
   2428436474, 2756734187, 3204031479, 3329325298]

/-- The eight 32-bit words of a SHA-256 hash state. -/
structure Sha8 where
  h0 : Nat
  h1 : Nat
  h2 : Nat
  h3 : Nat
  h4 : Nat
  h5 : Nat
  h6 : Nat
  h7 : Nat
deriving DecidableEq, Repr

/-- The SHA-256 initial hash value, written in decimal. -/
def shaInit : Sha8 :=
  ⟨1779033703, 3144134277, 1013904242, 2773480762,
   1359893119, 2600822924, 528734635, 1541459225⟩

/-- Big-endian packing of bytes into 32-bit words. -/
def bytesToWords : List Nat → List Nat
  | b0 :: b1 :: b2 :: b3 :: rest =>
    (((b0 * 256 + b1) * 256 + b2) * 256 + b3) :: bytesToWords rest
  | _ => []

/-- Message-schedule extension: append one derived word per step until the
schedule is full. -/
def scheduleExtend : List Nat → Nat → List Nat
  | ws, 0 => ws
  | ws, n + 1 =>
    let t := w32 (smallSigma1 (ws.getD (ws.length - 2) 0)
      + ws.getD (ws.length - 7) 0
      + smallSigma0 (ws.getD (ws.length - 15) 0)
      + ws.getD (ws.length - 16) 0)
    scheduleExtend (ws ++ [t]) n

/-- One SHA-256 round over the working variables, fed a round constant and a
schedule word. -/
def roundStep (s : Sha8) (kw : Nat × Nat) : Sha8 :=
  let t1 := w32 (s.h7 + bigSigma1 s.h4 + shaCh s.h4 s.h5 s.h6 + kw.1 + kw.2)
  let t2 := w32 (bigSigma0 s.h0 + shaMaj s.h0 s.h1 s.h2)
  ⟨w32 (t1 + t2), s.h0, s.h1, s.h2, w32 (s.h3 + t1), s.h4, s.h5, s.h6⟩

/-- Compression of one 64-byte chunk into the running hash state. -/
def compressChunk (s : Sha8) (chunk : List Nat) : Sha8 :=
  let ws := scheduleExtend (bytesToWords chunk) 48
  let t := (shaK.zip ws).foldl roundStep s
  ⟨w32 (s.h0 + t.h0), w32 (s.h1 + t.h1), w32 (s.h2 + t.h2), w32 (s.h3 + t.h3),
   w32 (s.h4 + t.h4), w32 (s.h5 + t.h5), w32 (s.h6 + t.h6), w32 (s.h7 + t.h7)⟩

/-- The 64-bit big-endian byte rendering of the message bit length. -/
def lenBytes64 (l : Nat) : List Nat :=
  [l / 2 ^ 56 % 256, l / 2 ^ 48 % 256, l / 2 ^ 40 % 256, l / 2 ^ 32 % 256,
   l / 2 ^ 24 % 256, l / 2 ^ 16 % 256, l / 2 ^ 8 % 256, l % 256]

/-- SHA-256 padding: a 0x80 byte, zeros up to 56 mod 64, and the bit length. -/
def padMessage (msg : List Nat) : List Nat :=
  msg ++ [128] ++ List.replicate ((119 - msg.length % 64) % 64) 0
      ++ lenBytes64 (msg.length * 8)

/-- Split a byte list into 64-byte chunks. -/
def chunks64 : List Nat → List (List Nat)
  | [] => []
  | b :: rest => ((b :: rest).take 64) :: chunks64 ((b :: rest).drop 64)
termination_by l => l.length
decreasing_by simp [List.length_drop]; omega

/-- The SHA-256 hash state of a byte message. -/
def sha256Words (msg : List Nat) : Sha8 :=
  (chunks64 (padMessage msg)).foldl compressChunk shaInit

/-- Big-endian bytes of one 32-bit word. -/
def wordBytes (w : Nat) : List Nat :=
  [w / 2 ^ 24 % 256, w / 2 ^ 16 % 256, w / 2 ^ 8 % 256, w % 256]

/-- SHA-256 digest of a byte message, as its 32 bytes. -/
def sha256 (msg : List Nat) : List Nat :=
  let s := sha256Words msg
  wordBytes s.h0 ++ wordBytes s.h1 ++ wordBytes s.h2 ++ wordBytes s.h3
    ++ wordBytes s.h4 ++ wordBytes s.h5 ++ wordBytes s.h6 ++ wordBytes s.h7

/-- HMAC-SHA256 over byte lists: hash long keys down, pad to the block size,
then the nested inner and outer hashes over the xored pads. -/
def hmacSha256 (key msg : List Nat) : List Nat :=
  let k0 := if key.length > 64 then sha256 key else key
  let kp := k0 ++ List.replicate (64 - k0.length) 0
  let inner := sha256 (kp.map (Nat.xor 54) ++ msg)
  sha256 (kp.map (Nat.xor 92) ++ inner)

/-- A hex digit character, lowercase as the digest method renders it. -/
def hexDigit (n : Nat) : Char :=
  if n < 10 then Char.ofNat (48 + n) else Char.ofNat (87 + n)

/-- Two hex characters of one byte. -/
def byteHex (b : Nat) : List Char := [hexDigit (b / 16 % 16), hexDigit (b % 16)]

/-- Lowercase hex rendering of a byte list. -/
def bytesToHex (bs : List Nat) : String := String.mk (bs.map byteHex).flatten

/-- The UTF-8 bytes of one character. -/
def utf8EncodeChar (c : Char) : List Nat :=
  let n := c.toNat
  if n < 128 then [n]
  else if n < 2048 then [192 + n / 64, 128 + n % 64]
  else if n < 65536 then [224 + n / 4096, 128 + n / 64 % 64, 128 + n % 64]
  else [240 + n / 262144, 128 + n / 4096 % 64, 128 + n / 64 % 64, 128 + n % 64]

/-- The serialized bytes of a payload string, as the HMAC consumes them. -/
def strToBytes (s : String) : List Nat := (s.data.map utf8EncodeChar).flatten

/-- The hex HMAC-SHA256 digest of a payload string under a secret, as both
deliverWebhook and verifyWebhookSignature compute it. -/
def hmacSha256Hex (secret payload : String) : String :=
  bytesToHex (hmacSha256 (strToBytes secret) (strToBytes payload))

/-- Removal of the first occurrence of a pattern from a character list, as
the JavaScript replace with a plain-string pattern and empty replacement
behaves. -/
def replaceFirstAux (pat : List Char) : List Char → List Char
  | [] => []
  | c :: rest =>
    if pat.isPrefixOf (c :: rest) then (c :: rest).drop pat.length
    else c :: replaceFirstAux pat rest

/-- Removal of the first occurrence of a pattern from a string. -/
def replaceFirst (s pat : String) : String :=
  String.mk (replaceFirstAux pat.data s.data)

/-- Embedding of verifyWebhookSignature: recompute the hex digest and compare
it with the received signature after stripping a sha256= marker. -/
def verifyWebhookSignature (payload signature secret : String) : Bool :=
  hmacSha256Hex secret payload == replaceFirst signature "sha256="

/-- The X-SPY-Signature header value deliverWebhook sends: the hex digest
with the sha256= marker prefixed. -/
def deliverSignatureHeader (payload secret : String) : String :=
  "sha256=" ++ hmacSha256Hex secret payload

/-! ## Derived vocabulary and concrete sample data used by the theorems -/

/-- The six verification type tags the updateKycVerificationStatus switch
recognizes. -/
def kycMethodNames : List String :=
  ["aadhaar", "pan", "face", "upi", "bank", "name_match"]

/-- The verified flag belonging to a verification type. -/
def methodFlag (m : String) (s : KycSession) : Bool :=
  if m = "aadhaar" then s.aadhaarVerified
  else if m = "pan" then s.panVerified
  else if m = "face" then s.faceVerified
  else if m = "upi" then s.upiVerified
  else if m = "bank" then s.bankVerified
  else if m = "name_match" then s.nameMatchVerified
  else false

/-- The recorded-name field belonging to a verification type: the name-match
type records into the consolidated verifiedName and the face type has no
name field. -/
def methodRecordedName (m : String) (s : KycSession) : Option String :=
  if m = "aadhaar" then s.aadhaarName
  else if m = "pan" then s.panName
  else if m = "upi" then s.upiName
  else if m = "bank" then s.bankName
  else if m = "name_match" then s.verifiedName
  else none

/-- A sample KYC session with the given status, all six flags still false,
and an Aadhaar reference id in its verificationData. -/
def sampleKyc (status : String) : KycSession :=
  ⟨"kyc_001", "partner_001", "user_001", status, false, false, false, false,
   false, false, none, none, none, none, none, some ⟨some "ref_001"⟩⟩

/-- The payload strings used in the webhook collision argument: the letter a
repeated. -/
def aStr (n : Nat) : String := String.mk (List.replicate n 'a')

/-- Byte lists as big numbers, base 256 little-endian, for counting digests. -/
def encodeBytes : List Nat → Nat
  | [] => 0
  | b :: rest => b + 256 * encodeBytes rest

/-! ## Helper lemmas -/

/-- Writing under a key and reading the same key back yields the written
value. -/
theorem lookupEntry_setEntry_self {α : Type} (l : List (String × α)) (k : String) (v : α) :
    lookupEntry (setEntry l k v) k = some v := by
  induction l with
  | nil => simp [setEntry, lookupEntry]
  | cons hd tl ih =>
    obtain ⟨k0, v0⟩ := hd
    by_cases h : k0 = k
    · simp [setEntry, h, lookupEntry]
    · simp [setEntry, h, lookupEntry, ih]

/-- A nonempty string is truthy. -/
theorem jsTruthyStr_of_ne (s : String) (h : s ≠ "") : jsTruthyStr (some s) = true := by
  simp [jsTruthyStr, Bool.eq_false_iff, String.isEmpty_iff, h]

/-- A nonempty string is not empty. -/
theorem isEmpty_eq_false_of_ne (s : String) (h : s ≠ "") : s.isEmpty = false := by
  simp [Bool.eq_false_iff, String.isEmpty_iff, h]

/-! ## C1: quote computation -/

/-- C1: for positive amountUsd and fxRate the quote computation returns
grossINR equal to amountUsd times fxRate, tds one percent of gross,
platformFee 0.7 percent of gross, gst 18 percent of the platform fee, netINR
the gross minus the three deductions, with netINR strictly below grossINR;
and at amountUsd 100 and fxRate 83.65 the values are exactly 8365, 83.65,
58.555, 10.5399 and 8212.2551. -/
theorem calculateQuote_correct (a r : ℚ) (net : String) (ha : 0 < a) (hr : 0 < r) :
    ((calculateQuoteWith a r net).grossInr = a * r ∧
     (calculateQuoteWith a r net).tds = (calculateQuoteWith a r net).grossInr * 0.01 ∧
     (calculateQuoteWith a r net).platformFee =
       (calculateQuoteWith a r net).grossInr * 0.007 ∧
     (calculateQuoteWith a r net).gst = (calculateQuoteWith a r net).platformFee * 0.18 ∧
     (calculateQuoteWith a r net).netInr =
       (calculateQuoteWith a r net).grossInr - (calculateQuoteWith a r net).tds
         - (calculateQuoteWith a r net).platformFee - (calculateQuoteWith a r net).gst ∧
     (calculateQuoteWith a r net).netInr < (calculateQuoteWith a r net).grossInr) ∧
    ((calculateQuoteWith 100 83.65 net).grossInr = 8365 ∧
     (calculateQuoteWith 100 83.65 net).tds = 83.65 ∧
     (calculateQuoteWith 100 83.65 net).platformFee = 58.555 ∧
     (calculateQuoteWith 100 83.65 net).gst = 10.5399 ∧
     (calculateQuoteWith 100 83.65 net).netInr = 8212.2551) := by
  constructor
  · refine ⟨rfl, rfl, rfl, rfl, rfl, ?_⟩
    have hg : 0 < a * r := mul_pos ha hr
    simp only [calculateQuoteWith]
    nlinarith
  · refine ⟨?_, ?_, ?_, ?_, ?_⟩ <;> · simp only [calculateQuoteWith]; norm_num

/-- Witness for calculateQuote_correct at the documented scenario. -/
theorem calculateQuote_correct_witness :
    (0 : ℚ) < 100 ∧ (0 : ℚ) < 83.65 ∧
    (calculateQuoteWith 100 83.65 "polygon").netInr <
      (calculateQuoteWith 100 83.65 "polygon").grossInr :=
  ⟨by norm_num, by norm_num,
    (calculateQuote_correct 100 83.65 "polygon" (by norm_num)
      (by norm_num)).1.2.2.2.2.2⟩

/-! ## C9: name-match similarity -/

/-- C9: after the handler normalization the similarity of John Doe against
john (three spaces) doe is exactly 1, and the similarity of John Doe against
Jane Smith is strictly below one half. -/
theorem nameMatch_similarity_values :
    nameMatchSimilarity "John Doe" "john   doe" = 1 ∧
    nameMatchSimilarity "John Doe" "Jane Smith" < 0.5 := by
  constructor
  · have h1 : cleanName "John Doe" = "john doe" := by decide
    have h2 : cleanName "john   doe" = "john doe" := by decide
    have h3 : levenshteinDistance "john doe" "john doe" = 0 := by decide
    have h4 : ("john doe" : String).length = 8 := by decide
    rw [nameMatchSimilarity, h1, h2, calculateNameSimilarity]
    rw [h3, h4]
    norm_num
  · have h1 : cleanName "John Doe" = "john doe" := by decide
    have h2 : cleanName "Jane Smith" = "jane smith" := by decide
    have h3 : levenshteinDistance "john doe" "jane smith" = 8 := by decide
    have h4 : ("john doe" : String).length = 8 := by decide
    have h5 : ("jane smith" : String).length = 10 := by decide
    rw [nameMatchSimilarity, h1, h2, calculateNameSimilarity]
    rw [h3, h4, h5]
    norm_num

/-! ## C10: storage updates under unknown ids -/

/-- C10: each of the four storage update operations, invoked with an id that
is not in the store, returns undefined and leaves the whole storage
unchanged. -/
theorem storage_update_unknown_id (st : Storage) (id : String)
    (ft : Transaction → Transaction) (fk : KycSession → KycSession)
    (fw : WebhookEvent → WebhookEvent) (ty : String) (v : Bool) (n : Option String)
    (ht : lookupEntry st.transactions id = none)
    (hk : lookupEntry st.kycSessions id = none)
    (hw : lookupEntry st.webhookEvents id = none) :
    updateTransaction st id ft = (none, st) ∧
    updateKycSession st id fk = (none, st) ∧
    updateKycVerificationStatus st id ty v n = (none, st) ∧
    updateWebhookEvent st id fw = (none, st) := by
  refine ⟨?_, ?_, ?_, ?_⟩ <;>
    simp [updateTransaction, updateKycSession, updateKycVerificationStatus,
      updateWebhookEvent, ht, hk, hw]

/-- Witness for storage_update_unknown_id on the empty storage. -/
theorem storage_update_unknown_id_witness :
    lookupEntry (Storage.mk 1 [] [] [] []).transactions "tx_404" = none ∧
    lookupEntry (Storage.mk 1 [] [] [] []).kycSessions "tx_404" = none ∧
    lookupEntry (Storage.mk 1 [] [] [] []).webhookEvents "tx_404" = none ∧
    (updateTransaction (Storage.mk 1 [] [] [] []) "tx_404" id =
        (none, Storage.mk 1 [] [] [] []) ∧
      updateKycSession (Storage.mk 1 [] [] [] []) "tx_404" id =
        (none, Storage.mk 1 [] [] [] []) ∧
      updateKycVerificationStatus (Storage.mk 1 [] [] [] []) "tx_404" "pan" true none =
        (none, Storage.mk 1 [] [] [] []) ∧
      updateWebhookEvent (Storage.mk 1 [] [] [] []) "tx_404" id =
        (none, Storage.mk 1 [] [] [] [])) :=
  ⟨rfl, rfl, rfl,
    storage_update_unknown_id (Storage.mk 1 [] [] [] []) "tx_404" id id id
      "pan" true none rfl rfl rfl⟩

/-! ## C7: FX fallback -/

/-- C7: whenever the external FX call fails (missing key, thrown error, or a
payload that is not a success with a truthy INR rate), getUsdInrRate returns
the hard-coded fallback 83.40 rather than raising, and quote creation through
the quotes handler still succeeds, returning a quote whose fxRate is the
fallback (the mock store fabricates an active session for every id, so the
session check passes). -/
theorem getUsdInrRate_fallback (apiKey : Option String) (fx : FxFetchOutcome)
    (hfail : fxCallFailed apiKey fx) :
    getUsdInrRate apiKey fx = 83.40 ∧
    ∀ (sid asset network : String) (amt : ℚ) (now : Nat),
      sid ≠ "" → asset ≠ "" → network ≠ "" →
      (quotesHandler (some sid) (some asset) (some network) (some amt) apiKey fx now).1
          = respOk ∧
      ((quotesHandler (some sid) (some asset) (some network) (some amt)
          apiKey fx now).2.map CreatedQuote.fxRate) = some (83.40 : ℚ) := by
  have h83 : getUsdInrRate apiKey fx = 83.40 := by
    cases apiKey with
    | none => rfl
    | some k =>
      cases fx with
      | thrown => rfl
      | ok result inrRate =>
        cases inrRate with
        | none => rfl
        | some r =>
          simp only [fxCallFailed] at hfail
          simp only [getUsdInrRate, ite_eq_right_iff]
          rintro ⟨hres, hr⟩
          rcases hfail with h | h | h
          · exact absurd hres h
          · exact absurd h (by simp)
          · exact absurd (by injection h) hr
  refine ⟨h83, ?_⟩
  intro sid asset network amt now hsid hasset hnetwork
  constructor <;>
    simp [quotesHandler, jsTruthyStr_of_ne _ hsid, jsTruthyStr_of_ne _ hasset,
      jsTruthyStr_of_ne _ hnetwork, mockGetSessionById, calculateQuote,
      calculateQuoteWith, h83]

/-- Witness for getUsdInrRate_fallback: a thrown FX fetch, quoting against a
concrete session id. -/
theorem getUsdInrRate_fallback_witness :
    fxCallFailed none FxFetchOutcome.thrown ∧
    ("sess_001" : String) ≠ "" ∧ ("USDC" : String) ≠ "" ∧ ("polygon" : String) ≠ "" ∧
    ((quotesHandler (some "sess_001") (some "USDC") (some "polygon") (some 100)
        none FxFetchOutcome.thrown 0).1 = respOk ∧
      ((quotesHandler (some "sess_001") (some "USDC") (some "polygon") (some 100)
          none FxFetchOutcome.thrown 0).2.map CreatedQuote.fxRate) = some (83.40 : ℚ)) :=
  ⟨trivial, by decide, by decide, by decide,
    (getUsdInrRate_fallback none FxFetchOutcome.thrown trivial).2
      "sess_001" "USDC" "polygon" 100 0 (by decide) (by decide) (by decide)⟩

/-! ## C2: transaction creation guards -/

/-- C2 failing input, evaluated: a create request referencing ids under which
no session, quote or KYC flow ever existed is accepted — the mock store
fabricates an active session, a completed KYC session and a quote expiring
15 minutes after the lookup for every id, so the rejection branches are
unreachable and a fabricated pending_deposit transaction is returned (and
not persisted). -/
theorem createTransaction_fabricated_success (now : Nat) :
    (mockGetSessionById "sess_x").status = "active" ∧
    (mockGetKycSessionById "kyc_x").status = "completed" ∧
    ¬ now > (mockGetQuoteByReference "quote_x" now).expiresAt ∧
    createTransactionHandler (some "sess_x") (some "quote_x") (some "kyc_x")
        (some "USDC") (some "polygon") now =
      (respOk, some
        { transactionId := "txn_" ++ toString now, sessionId := "sess_x",
          quoteReference := "quote_x", userId := "user_12345", expectedAmount := 100,
          network := "polygon",
          depositAddress := "0x1234567890abcdef1234567890abcdef12345678",
          status := "pending_deposit", expiresAt := now + 15 * 60 * 1000 }) := by
  have hexp : ¬ now > (mockGetQuoteByReference "quote_x" now).expiresAt := by
    simp only [mockGetQuoteByReference]
    omega
  refine ⟨rfl, rfl, hexp, ?_⟩
  simp only [createTransactionHandler, mockGetSessionById, mockGetQuoteByReference,
    mockGetKycSessionById]
  simp [hexp, jsTruthyStr]
  decide

/-! ## C3: deposit recording -/

/-- C3 failing input, evaluated: a deposit report responds success and
attempts the deposit.detected webhook, but nothing persists — the store's
update is an echo, and the transaction read back afterwards is still the
pending_deposit fabrication with no deposit fields, identically for a
repeated call. -/
theorem recordDeposit_persists_nothing :
    simulateDepositHandler (some "tx_001") (some 55) (some "0xnew") =
      (respOk, [⟨"https://mockpartner.com/callback", "deposit.detected", "tx_001"⟩]) ∧
    mockGetTransactionById "tx_001" =
      ⟨"tx_001", "quote_12345", "pending_deposit", "polygon",
       "0x1234567890abcdef1234567890abcdef12345678"⟩ ∧
    (mockGetTransactionById "tx_001").status = "pending_deposit" := by
  exact ⟨by decide, rfl, rfl⟩

/-! ## C4: payout initiation -/

/-- C4: every payout attempt is rejected with 400 Transaction not ready for
payout — the store fabricates status pending_deposit for every transaction
id (deposit confirmation never persists), so the deposit_confirmed success
path with its UTR, completion and payout.settled webhook is unreachable. -/
theorem initiatePayout_always_not_ready (txId channel dest : String) (amt : ℚ)
    (htx : txId ≠ "") (hch : channel ≠ "") (hdest : dest ≠ "") (hamt : amt ≠ 0) :
    (mockGetTransactionById txId).status = "pending_deposit" ∧
    initiatePayoutHandler (some txId) (some channel) (some dest) (some amt) =
      (respErr 400 "Transaction not ready for payout", []) := by
  refine ⟨rfl, ?_⟩
  simp [initiatePayoutHandler, jsTruthyStr_of_ne _ htx, jsTruthyStr_of_ne _ hch,
    jsTruthyStr_of_ne _ hdest, jsTruthyNum, hamt, mockGetTransactionById]

/-- Witness for initiatePayout_always_not_ready at the failing input: a
payout on tx_001 right after its deposit report. -/
theorem initiatePayout_always_not_ready_witness :
    ("tx_001" : String) ≠ "" ∧ ("imps" : String) ≠ "" ∧ ("user@upi" : String) ≠ "" ∧
    (100 : ℚ) ≠ 0 ∧
    ((mockGetTransactionById "tx_001").status = "pending_deposit" ∧
      initiatePayoutHandler (some "tx_001") (some "imps") (some "user@upi") (some 100) =
        (respErr 400 "Transaction not ready for payout", [])) :=
  ⟨by decide, by decide, by decide, by decide,
    initiatePayout_always_not_ready "tx_001" "imps" "user@upi" 100
      (by decide) (by decide) (by decide) (by decide)⟩

/-! ## C5: KYC completion policy -/

/-- Counterexample to C5: a KYC session id on which no verification method
ever ran reads back with status completed — completion is fabricated by the
store for every id, not derived from any verification set — while the one
handler that writes status completed rejects with the missing-reference
message even for a successful provider outcome. -/
theorem kyc_completed_without_verification :
    (mockGetKycSessionById "kyc_unverified").status = "completed" ∧
    (mockGetKycSessionById "kyc_unverified").verificationData = none ∧
    aadhaarOkycHandler (some "kyc_unverified") (some "999941057058") (some "123456")
        (some "John Doe") (CashfreeOutcome.success (some "JOHN DOE")) =
      respErr 400 "No Aadhaar reference ID found. Please generate OTP first." :=
  ⟨rfl, rfl, by decide⟩

/-- C5 as amended: every KYC session id reads back with status completed
unconditionally (the store consults no verification flags), and the Aadhaar
verification handler — the only code path that writes status completed —
always rejects with the missing-reference message, whatever the provider
outcome, because the fabricated session carries no verificationData; its
write would not persist regardless. -/
theorem kyc_completion_fabricated (sid aadhaarNumber otp : String)
    (name : Option String) (outcome : CashfreeOutcome)
    (hsid : sid ≠ "") (hnum : aadhaarNumber ≠ "") (hotp : otp ≠ "") :
    (mockGetKycSessionById sid).status = "completed" ∧
    aadhaarOkycHandler (some sid) (some aadhaarNumber) (some otp) name outcome =
      respErr 400 "No Aadhaar reference ID found. Please generate OTP first." := by
  refine ⟨rfl, ?_⟩
  simp [aadhaarOkycHandler, isEmpty_eq_false_of_ne _ hsid, isEmpty_eq_false_of_ne _ hnum,
    isEmpty_eq_false_of_ne _ hotp, mockGetKycSessionById, jsTruthyStr]

/-- Witness for kyc_completion_fabricated at a concrete session id and a
successful provider outcome. -/
theorem kyc_completion_fabricated_witness :
    ("kyc_001" : String) ≠ "" ∧ ("999941057058" : String) ≠ "" ∧
    ("123456" : String) ≠ "" ∧
    ((mockGetKycSessionById "kyc_001").status = "completed" ∧
      aadhaarOkycHandler (some "kyc_001") (some "999941057058") (some "123456")
          (some "John Doe") (CashfreeOutcome.success (some "JOHN DOE")) =
        respErr 400 "No Aadhaar reference ID found. Please generate OTP first.") :=
  ⟨by decide, by decide, by decide,
    kyc_completion_fabricated "kyc_001" "999941057058" "123456"
      (some "John Doe") (CashfreeOutcome.success (some "JOHN DOE"))
      (by decide) (by decide) (by decide)⟩

/-! ## C6: KYC verification frame property -/

/-- C6: recording the result of verification method B through
updateKycVerificationStatus writes the merged session back and leaves the
verified flag and the recorded name of every other method A unchanged; in
particular a flag of A that is true stays true. -/
theorem updateKycVerificationStatus_frame (st : Storage) (id B : String) (v : Bool)
    (n : Option String) (A : String) (hA : A ∈ kycMethodNames) (hB : B ∈ kycMethodNames)
    (hAB : A ≠ B) (s : KycSession) (hs : lookupEntry st.kycSessions id = some s) :
    lookupEntry (updateKycVerificationStatus st id B v n).2.kycSessions id =
      some (applyVerification s B v n) ∧
    methodFlag A (applyVerification s B v n) = methodFlag A s ∧
    methodRecordedName A (applyVerification s B v n) = methodRecordedName A s ∧
    (methodFlag A s = true → methodFlag A (applyVerification s B v n) = true) := by
  have hstore : lookupEntry (updateKycVerificationStatus st id B v n).2.kycSessions id =
      some (applyVerification s B v n) := by
    simp [updateKycVerificationStatus, hs, lookupEntry_setEntry_self]
  have hframe : methodFlag A (applyVerification s B v n) = methodFlag A s ∧
      methodRecordedName A (applyVerification s B v n) = methodRecordedName A s := by
    simp only [kycMethodNames, List.mem_cons, List.not_mem_nil, or_false] at hA hB
    rcases hA with rfl | rfl | rfl | rfl | rfl | rfl <;>
      rcases hB with rfl | rfl | rfl | rfl | rfl | rfl <;>
        simp_all [applyVerification, methodFlag, methodRecordedName]
  exact ⟨hstore, hframe.1, hframe.2, fun h => hframe.1.trans h⟩

/-- Witness for updateKycVerificationStatus_frame: a PAN update against a
stored session, with aadhaar as the untouched method. -/
theorem updateKycVerificationStatus_frame_witness :
    ("aadhaar" : String) ∈ kycMethodNames ∧ ("pan" : String) ∈ kycMethodNames ∧
    ("aadhaar" : String) ≠ "pan" ∧
    lookupEntry (Storage.mk 1 [("kyc_001", sampleKyc "initiated")] [] [] []).kycSessions
      "kyc_001" = some (sampleKyc "initiated") ∧
    (lookupEntry (updateKycVerificationStatus
        (Storage.mk 1 [("kyc_001", sampleKyc "initiated")] [] [] [])
        "kyc_001" "pan" true (some "PAN NAME")).2.kycSessions "kyc_001" =
      some (applyVerification (sampleKyc "initiated") "pan" true (some "PAN NAME")) ∧
    methodFlag "aadhaar" (applyVerification (sampleKyc "initiated") "pan" true (some "PAN NAME")) =
      methodFlag "aadhaar" (sampleKyc "initiated") ∧
    methodRecordedName "aadhaar"
        (applyVerification (sampleKyc "initiated") "pan" true (some "PAN NAME")) =
      methodRecordedName "aadhaar" (sampleKyc "initiated") ∧
    (methodFlag "aadhaar" (sampleKyc "initiated") = true →
      methodFlag "aadhaar" (applyVerification (sampleKyc "initiated") "pan" true
        (some "PAN NAME")) = true)) :=
  ⟨by decide, by decide, by decide, by decide,
    updateKycVerificationStatus_frame
      (Storage.mk 1 [("kyc_001", sampleKyc "initiated")] [] [] [])
      "kyc_001" "pan" true (some "PAN NAME") "aadhaar"
      (by decide) (by decide) (by decide) (sampleKyc "initiated") (by decide)⟩

/-! ## C8: webhook signature round-trip -/

/-- Removing a pattern that sits at the front of a list removes exactly that
prefix. -/
theorem replaceFirstAux_append (pat xs : List Char) (h : pat ≠ []) :
    replaceFirstAux pat (pat ++ xs) = xs := by
  match pat, h with
  | p :: ps, _ =>
    show replaceFirstAux (p :: ps) (p :: (ps ++ xs)) = xs
    rw [replaceFirstAux]
    have hpre : (p :: ps).isPrefixOf (p :: (ps ++ xs)) = true := by
      rw [List.isPrefixOf_iff_prefix]
      exact ⟨xs, by simp⟩
    rw [if_pos hpre]
    simp [List.drop_left]

/-- Stripping the sha256= marker from a string that starts with it yields the
remainder. -/
theorem replaceFirst_marker (s : String) :
    replaceFirst ("sha256=" ++ s) "sha256=" = s := by
  have hdata : ("sha256=" ++ s).data = "sha256=".data ++ s.data := String.data_append _ _
  rw [replaceFirst, hdata, replaceFirstAux_append _ _ (by decide)]

/-- Each byte of a serialized word is below 256. -/
theorem wordBytes_lt (w : Nat) : ∀ b ∈ wordBytes w, b < 256 := by
  intro b hb
  simp [wordBytes] at hb
  rcases hb with rfl | rfl | rfl | rfl <;> omega

/-- A SHA-256 digest has exactly 32 bytes. -/
theorem sha256_length (m : List Nat) : (sha256 m).length = 32 := by
  simp [sha256, wordBytes]

/-- Every byte of a SHA-256 digest is below 256. -/
theorem sha256_lt (m : List Nat) : ∀ b ∈ sha256 m, b < 256 := by
  intro b hb
  simp only [sha256, List.mem_append] at hb
  rcases hb with ((((((hb | hb) | hb) | hb) | hb) | hb) | hb) | hb <;>
    exact wordBytes_lt _ _ hb

/-- An HMAC-SHA256 digest has exactly 32 bytes. -/
theorem hmacSha256_length (key msg : List Nat) : (hmacSha256 key msg).length = 32 := by
  rw [hmacSha256]
  exact sha256_length _

/-- Every byte of an HMAC-SHA256 digest is below 256. -/
theorem hmacSha256_lt (key msg : List Nat) : ∀ b ∈ hmacSha256 key msg, b < 256 := by
  rw [hmacSha256]
  exact sha256_lt _

/-- The numeric encoding of a byte list is bounded by 256 to its length. -/
theorem encodeBytes_lt (l : List Nat) (h : ∀ b ∈ l, b < 256) :
    encodeBytes l < 256 ^ l.length := by
  induction l with
  | nil => simp [encodeBytes]
  | cons b rest ih =>
    have hb : b < 256 := h b (by simp)
    have hrest := ih (fun x hx => h x (by simp [hx]))
    simp only [encodeBytes, List.length_cons, pow_succ]
    nlinarith

/-- The numeric encoding separates byte lists of equal length. -/
theorem encodeBytes_inj (l1 l2 : List Nat) (h1 : ∀ b ∈ l1, b < 256)
    (h2 : ∀ b ∈ l2, b < 256) (hlen : l1.length = l2.length)
    (henc : encodeBytes l1 = encodeBytes l2) : l1 = l2 := by
  induction l1 generalizing l2 with
  | nil => cases l2 with
    | nil => rfl
    | cons b rest => simp at hlen
  | cons b rest ih =>
    cases l2 with
    | nil => simp at hlen
    | cons b2 rest2 =>
      have hb : b < 256 := h1 b (by simp)
      have hb2 : b2 < 256 := h2 b2 (by simp)
      simp only [encodeBytes] at henc
      have hbeq : b = b2 ∧ encodeBytes rest = encodeBytes rest2 := by omega
      have hrec := ih rest2 (fun x hx => h1 x (List.mem_cons_of_mem _ hx))
        (fun x hx => h2 x (List.mem_cons_of_mem _ hx)) (by simpa using hlen) hbeq.2
      rw [hbeq.1, hrec]

/-- The serialized bytes of the letter-a payloads: n copies of byte 97. -/
theorem strToBytes_aStr (n : Nat) : strToBytes (aStr n) = List.replicate n 97 := by
  induction n with
  | zero => rfl
  | succ k ih =>
    have hcons : aStr (k + 1) = String.mk ('a' :: List.replicate k 'a') := by
      simp [aStr, List.replicate_succ]
    rw [hcons]
    show ((('a' :: List.replicate k 'a').map utf8EncodeChar)).flatten = List.replicate (k + 1) 97
    rw [List.map_cons, List.flatten_cons]
    have hih : ((List.replicate k 'a').map utf8EncodeChar).flatten = List.replicate k 97 := ih
    rw [hih]
    simp [List.replicate_succ, utf8EncodeChar]

/-- The encoded HMAC digest of every letter-a payload under the test secret
stays below 256 to the 32. -/
theorem hmacDigest_bound (n : ℕ) :
    encodeBytes (hmacSha256 (strToBytes "whsec_test") (strToBytes (aStr n))) < 256 ^ 32 := by
  have h := encodeBytes_lt _ (hmacSha256_lt (strToBytes "whsec_test") (strToBytes (aStr n)))
  rwa [hmacSha256_length] at h

/-- Pigeonhole over the finitely many 32-byte digests: two distinct letter-a
payloads share an HMAC digest under the test secret. -/
theorem hmacDigest_pigeonhole :
    ∃ m n : ℕ, m ≠ n ∧
      (⟨encodeBytes (hmacSha256 (strToBytes "whsec_test") (strToBytes (aStr m))),
        hmacDigest_bound m⟩ : Fin (256 ^ 32)) =
      ⟨encodeBytes (hmacSha256 (strToBytes "whsec_test") (strToBytes (aStr n))),
        hmacDigest_bound n⟩ := by
  obtain ⟨m, n, hmn, hfeq⟩ := Finite.exists_ne_map_eq_of_infinite
    (fun k : ℕ => (⟨encodeBytes (hmacSha256 (strToBytes "whsec_test") (strToBytes (aStr k))),
      hmacDigest_bound k⟩ : Fin (256 ^ 32)))
  exact ⟨m, n, hmn, hfeq⟩

/-- Counterexample to C8: two payloads with different serialized bytes exist
whose HMAC-SHA256 digests under a fixed secret coincide, so the signature
delivered for the first verifies against the second — a mutation is detected
only up to digest collisions, which a 32-byte digest over unboundedly many
payloads cannot exclude. -/
theorem webhookSignature_collision_exists :
    ∃ p p2 : String, strToBytes p ≠ strToBytes p2 ∧
      verifyWebhookSignature p2 (deliverSignatureHeader p "whsec_test") "whsec_test" = true := by
  obtain ⟨m, n, hmn, hfeq⟩ := hmacDigest_pigeonhole
  simp only [Fin.mk.injEq] at hfeq
  have hdig : hmacSha256 (strToBytes "whsec_test") (strToBytes (aStr m)) =
      hmacSha256 (strToBytes "whsec_test") (strToBytes (aStr n)) :=
    encodeBytes_inj _ _ (hmacSha256_lt _ _) (hmacSha256_lt _ _)
      (by rw [hmacSha256_length, hmacSha256_length]) hfeq
  refine ⟨aStr m, aStr n, ?_, ?_⟩
  · rw [strToBytes_aStr, strToBytes_aStr]
    intro h
    exact hmn (by simpa using congrArg List.length h)
  · rw [verifyWebhookSignature, deliverSignatureHeader, replaceFirst_marker]
    have hhex : hmacSha256Hex "whsec_test" (aStr n) = hmacSha256Hex "whsec_test" (aStr m) := by
      rw [hmacSha256Hex, hmacSha256Hex, hdig]
    rw [hhex]
    exact beq_self_eq_true _

/-- C8 as amended: for every payload and secret, the signature header sent at
delivery time verifies against the same payload and secret; and verification
of any signature against any payload succeeds exactly when the recomputed
hex digest equals the signature with its sha256= marker stripped — so a
payload with different bytes fails verification precisely when its digest
differs, which digest collisions prevent from holding universally. -/
theorem webhookSignature_roundtrip_iff :
    ∀ payload secret : String,
      verifyWebhookSignature payload (deliverSignatureHeader payload secret) secret = true ∧
      ∀ (payload2 sig : String),
        (verifyWebhookSignature payload2 sig secret = true ↔
          hmacSha256Hex secret payload2 = replaceFirst sig "sha256=") := by
  intro payload secret
  constructor
  · rw [verifyWebhookSignature, deliverSignatureHeader, replaceFirst_marker]
    exact beq_self_eq_true _
  · intro payload2 sig
    rw [verifyWebhookSignature]
    exact beq_iff_eq ..

end StablePay
